import Mathlib

/-!
Verification of the WealthGenie portfolio-generation engine.

Monetary amounts and percentages are modelled as rationals (ℚ); JavaScript
numbers are IEEE doubles, but every claim checked here concerns the algebraic
structure of the computations, not floating-point rounding.
-/

set_option maxRecDepth 2000
set_option linter.unusedVariables false

namespace WealthGenie

/-- Data model from src/types.ts: the three yearly insurance premiums. -/
structure InsuranceDetails where
  termPlan : ℚ
  healthInsurance : ℚ
  personalAccident : ℚ
deriving DecidableEq, Repr

/-- Data model from src/types.ts: FinancialDetails (the FinancialSnapshot).
The incomeStatus / hasCorpus / hasPension flags do not enter any of the
computations checked here and are omitted. -/
structure FinancialDetails where
  totalCorpusToInvest : ℚ
  monthlyIncome : ℚ
  monthlyExpenses : ℚ
  yearlyExpenses : ℚ
  insurance : InsuranceDetails
  taxSlab : String
deriving DecidableEq, Repr

/-- From src/services/geminiService.ts line 11 (identically src/components/UI.tsx
line 84): insuranceMonthly = (termPlan + healthInsurance + personalAccident) / 12. -/
def insuranceImpactMonthly (f : FinancialDetails) : ℚ :=
  (f.insurance.termPlan + f.insurance.healthInsurance + f.insurance.personalAccident) / 12

/-- From src/services/geminiService.ts line 12: totalMonthlyOutflow =
monthlyExpenses + yearlyExpenses / 12 + insuranceMonthly. -/
def totalMonthlyOutflow (f : FinancialDetails) : ℚ :=
  f.monthlyExpenses + f.yearlyExpenses / 12 + insuranceImpactMonthly f

/-- From src/services/geminiService.ts line 13: annualSalaryIncome = monthlyIncome * 12. -/
def annualSalaryIncome (f : FinancialDetails) : ℚ :=
  f.monthlyIncome * 12

/-- From src/services/geminiService.ts line 14: totalFinancialBase (the taxable
base) = annualSalaryIncome + totalCorpusToInvest.  The JavaScript reads
`(financial.totalCorpusToInvest || 0)`; on a numeric field this is the field
itself (0 maps to 0). -/
def totalFinancialBase (f : FinancialDetails) : ℚ :=
  annualSalaryIncome f + f.totalCorpusToInvest

/-- Tax-slab labels from src/constants.ts (TAX_SLABS ranges, in order). -/
def TAX_SLABS : List String :=
  ["Up to ₹3,00,000",
   "₹3,00,001 - ₹7,00,000",
   "₹7,00,001 - ₹10,00,000",
   "₹10,00,001 - ₹12,00,000",
   "₹12,00,001 - ₹15,00,000",
   "Above ₹15,00,000"]

/-- Modelled from the spec (§4.1) and from the bracket table spelled out in the
validateFinancialHealth prompt, src/components/UI.tsx lines 101-107 (Nil up to
3L; 5% 3-7L; 10% 7-10L; 15% 10-12L; 20% 12-15L; 30% above 15L): the bracket
label containing a given taxable base.  The numeric decision itself is executed
by the external AI collaborator; this definition embeds the rule the source
instructs it to apply. -/
def correctTaxSlab (base : ℚ) : String :=
  if base ≤ 300000 then "Up to ₹3,00,000"
  else if base ≤ 700000 then "₹3,00,001 - ₹7,00,000"
  else if base ≤ 1000000 then "₹7,00,001 - ₹10,00,000"
  else if base ≤ 1200000 then "₹10,00,001 - ₹12,00,000"
  else if base ≤ 1500000 then "₹12,00,001 - ₹15,00,000"
  else "Above ₹15,00,000"

/-- Shape of the validation result returned by validateFinancialHealth
(src/services/geminiService.ts lines 30-36).  The warnings array carries only
presentation text and is omitted. -/
structure ValidationResult where
  isValid : Bool
  errorMessage : Option String
  suggestedTaxSlab : Option String
deriving DecidableEq, Repr

/-- Modelled from the spec (§4.1) and from the decision rules spelled out in the
validateFinancialHealth prompt, src/components/UI.tsx lines 99-112: monthly
income below total monthly outflow is a FATAL error (isValid false, no slab
suggestion); a tax-slab mismatch alone keeps isValid true and returns the
correct bracket as suggestedTaxSlab.  The decision is executed by the external
AI collaborator; this definition embeds the rules the source instructs it to
apply, on top of the deterministic arithmetic of lines 84-87. -/
def validateFinancialHealth (f : FinancialDetails) : ValidationResult :=
  if f.monthlyIncome < totalMonthlyOutflow f then
    { isValid := false
      errorMessage := some "Monthly Income is less than Total Monthly Outflow"
      suggestedTaxSlab := none }
  else
    let correct := correctTaxSlab (totalFinancialBase f)
    if f.taxSlab = correct then
      { isValid := true, errorMessage := none, suggestedTaxSlab := none }
    else
      { isValid := true, errorMessage := none, suggestedTaxSlab := some correct }

/-- From src/App.tsx lines 212-238 (handleFinancialSubmit): the wizard advances
to step 3 exactly when validation succeeds; otherwise the step is unchanged and
the error message is surfaced.  Returns (new step, surfaced error). -/
def handleFinancialSubmit (f : FinancialDetails) (step : Nat) : Nat × Option String :=
  let v := validateFinancialHealth f
  if v.isValid then (3, none) else (step, v.errorMessage)

/-- From the STRICT ARITHMETIC RULES of the getPortfolioSummary prompt,
src/components/UI.tsx line 198 (executed by the external AI collaborator):
Gross Surplus = Monthly Inflow - Total Monthly Outflow. -/
def grossSurplus (f : FinancialDetails) : ℚ :=
  f.monthlyIncome - totalMonthlyOutflow f

/-- From the STRICT ARITHMETIC RULES of the getPortfolioSummary prompt,
src/components/UI.tsx line 199: Mandatory Emergency Buffer = 10% of Gross
Surplus OR 15% of Monthly Inflow, whichever is more conservative (larger). -/
def emergencyBuffer (f : FinancialDetails) : ℚ :=
  max ((10 / 100) * grossSurplus f) ((15 / 100) * f.monthlyIncome)

/-- From the STRICT ARITHMETIC RULES of the getPortfolioSummary prompt,
src/components/UI.tsx line 200: Recommended SIP = Gross Surplus - Emergency
Buffer, set to 0 if the result is negative. -/
def investableFromSalary (f : FinancialDetails) : ℚ :=
  max 0 (grossSurplus f - emergencyBuffer f)

/-- From the STRICT ARITHMETIC RULES of the getPortfolioSummary prompt,
src/components/UI.tsx line 201: Recommended Lumpsum = 80% of the investible
corpus (20% held liquid). -/
def investableFromCorpus (f : FinancialDetails) : ℚ :=
  (80 / 100) * f.totalCorpusToInvest

/-- Data model from src/types.ts: SchemeOption.  The performance and risk-metric
sub-records (cagr, drawdown, beta, ...) are carried opaquely through every
operation checked here; they are represented by the fields the App's logic
reads (name for overlap detection and substitution, category and aum for
display/sorting). -/
structure SchemeOption where
  name : String
  category : String
  aum : ℚ
deriving DecidableEq, Repr

/-- Data model from src/types.ts: RecommendedScheme extends SchemeOption with
the two track percentages and the alternatives list.  The inherited
SchemeOption fields are gathered in the scheme component. -/
structure RecommendedScheme where
  scheme : SchemeOption
  sipAllocationPct : ℚ
  lumpsumAllocationPct : ℚ
  alternatives : List SchemeOption
deriving DecidableEq, Repr

/-- From src/App.tsx lines 74-82 (overlapsMap memo): occurrence count of an
instrument name across the recommendation slots.  The source skips falsy
(empty) names when building the counts object, so an empty name is never
counted. -/
def overlapsMap (recs : List RecommendedScheme) (n : String) : Nat :=
  ((recs.map fun r => r.scheme.name).filter fun m => m ≠ "" ∧ m = n).length

/-- From src/App.tsx line 84 (hasAnyOverlap memo): some counted name occurs
more than once.  Iterating over the values of the counts object is the same as
asking, for each slot with a non-empty name, whether that name's count
exceeds 1. -/
def hasAnyOverlap (recs : List RecommendedScheme) : Prop :=
  ∃ r ∈ recs, r.scheme.name ≠ "" ∧ 1 < overlapsMap recs r.scheme.name

instance (recs : List RecommendedScheme) : Decidable (hasAnyOverlap recs) := by
  unfold hasAnyOverlap; infer_instance

/-- From src/App.tsx lines 87-92 (allocationSums memo): the per-track sums of
the allocation percentages, folded over the slots. -/
def allocationSums (recs : List RecommendedScheme) : ℚ × ℚ :=
  recs.foldl (fun acc r => (acc.1 + r.sipAllocationPct, acc.2 + r.lumpsumAllocationPct)) (0, 0)

/-- From src/App.tsx lines 279-301 (handleSchemeChange): substitute slot
index's instrument by the candidate named newName, chosen from the slot itself
followed by its alternatives.  confirmOverlap models the user's answer to the
confirm dialog shown when the new name already occurs in another slot.
Returns none when no state update happens (index out of range, name not in the
candidate set, or overlap declined), mirroring the early returns of the
source. -/
def handleSchemeChange (recs : List RecommendedScheme) (index : Nat)
    (newName : String) (confirmOverlap : Bool) : Option (List RecommendedScheme) :=
  match recs[index]? with
  | none => none
  | some slot =>
    match (slot.scheme :: slot.alternatives).find? (fun s => s.name = newName) with
    | none => none
    | some chosen =>
      if (recs.enum.any fun p => p.1 ≠ index && p.2.scheme.name == newName)
          && !confirmOverlap then none
      else some (recs.set index
        { scheme := chosen
          sipAllocationPct := slot.sipAllocationPct
          lumpsumAllocationPct := slot.lumpsumAllocationPct
          alternatives := (slot.scheme :: slot.alternatives).filter fun s => s.name ≠ newName })

/-- The two allocation tracks of src/App.tsx line 303 (the type parameter of
handleAllocationOverride). -/
inductive Track where
  | sip
  | lumpsum
deriving DecidableEq, Repr

/-- From src/App.tsx lines 303-311 (handleAllocationOverride): set slot index's
percentage for the given track to value, leaving everything else as it was.
The source mutates the slot object inside a shallow copy of the array; the
resulting state is the list with that one field updated. -/
def handleAllocationOverride (recs : List RecommendedScheme) (index : Nat)
    (t : Track) (value : ℚ) : List RecommendedScheme :=
  match recs[index]? with
  | none => recs
  | some slot =>
    recs.set index
      (match t with
       | .sip => { slot with sipAllocationPct := value }
       | .lumpsum => { slot with lumpsumAllocationPct := value })

/-- From src/constants.ts lines 11-52 (RISK_QUESTIONS): the four questionnaire
questions, each with the scores of its four options.  The option texts carry no
logic and are omitted. -/
structure RiskQuestion where
  id : Nat
  optionScores : List Nat
deriving DecidableEq, Repr

/-- The RISK_QUESTIONS table of src/constants.ts: ids 1..4, each option scored
1, 2, 3 or 4. -/
def RISK_QUESTIONS : List RiskQuestion :=
  [⟨1, [1, 2, 3, 4]⟩, ⟨2, [1, 2, 3, 4]⟩, ⟨3, [1, 2, 3, 4]⟩, ⟨4, [1, 2, 3, 4]⟩]

/-- A riskAnswers state (src/App.tsx line 52, a Record from question id to
chosen score) as an association list with distinct keys. -/
def RiskAnswers : Type := List (Nat × Nat)

/-- A riskAnswers state is reachable in the App when its keys are distinct
(object semantics), every key is the id of a RISK_QUESTIONS entry, and every
stored score is one of that question's option scores — answers are only ever
written by clicking an option button (src/App.tsx line 540). -/
def ReachableAnswers (answers : List (Nat × Nat)) : Prop :=
  (answers.map Prod.fst).Nodup ∧
    ∀ a ∈ answers, ∃ q ∈ RISK_QUESTIONS, q.id = a.1 ∧ a.2 ∈ q.optionScores

instance (answers : List (Nat × Nat)) : Decidable (ReachableAnswers answers) := by
  unfold ReachableAnswers; infer_instance

/-- From src/App.tsx lines 240-247 (handleRiskSubmit): blocked with the
"Please answer all questions" error when fewer keys are present than there are
RISK_QUESTIONS; otherwise the total score is the sum of the stored values and
risk computation proceeds.  Returns some totalScore on progression, none when
blocked. -/
def handleRiskSubmit (answers : List (Nat × Nat)) : Option Nat :=
  if answers.length < RISK_QUESTIONS.length then none
  else some (answers.foldl (fun a b => a + b.2) 0)

/-- From src/App.tsx lines 102-111 (the age-derivation effect): age is the year
difference, decremented when today's month precedes the birth month or the
months coincide and today's day precedes the birth day.  The effect fires
whenever the stored date of birth changes and stores this value in
personal.age. -/
def computeAge (birthY birthM birthD todayY todayM todayD : Int) : Int :=
  let age := todayY - birthY
  let m := todayM - birthM
  if m < 0 ∨ (m = 0 ∧ todayD < birthD) then age - 1 else age

/-- The worked example of spec §8: monthly income 100000, monthly expenses
30000, yearly expenses 60000, insurance premiums summing to 24000 per year,
with a corpus of 500000. -/
def exampleSnapshot : FinancialDetails :=
  { totalCorpusToInvest := 500000
    monthlyIncome := 100000
    monthlyExpenses := 30000
    yearlyExpenses := 60000
    insurance := { termPlan := 24000, healthInsurance := 0, personalAccident := 0 }
    taxSlab := "₹12,00,001 - ₹15,00,000" }

/-- Sanity check of the embedding against the spec §8 example: outflow 37000,
buffer max(6300, 15000) = 15000, SIP capacity 48000. -/
theorem exampleSnapshot_figures :
    totalMonthlyOutflow exampleSnapshot = 37000
  ∧ emergencyBuffer exampleSnapshot = 15000
  ∧ investableFromSalary exampleSnapshot = 48000 := by
  refine ⟨?_, ?_, ?_⟩ <;>
    norm_num [totalMonthlyOutflow, insuranceImpactMonthly, emergencyBuffer, grossSurplus,
      investableFromSalary, exampleSnapshot]

/-- C2: for every FinancialSnapshot, the cash-flow evaluator computes
insuranceImpactMonthly = (termPlan + healthInsurance + personalAccident) / 12,
totalMonthlyOutflow = monthlyExpenses + yearlyExpenses / 12 +
insuranceImpactMonthly, annualSalaryIncome = monthlyIncome * 12, and
taxableBase = annualSalaryIncome + totalCorpusToInvest. -/
theorem cashflow_evaluator_formulas (f : FinancialDetails) :
    insuranceImpactMonthly f
      = (f.insurance.termPlan + f.insurance.healthInsurance + f.insurance.personalAccident) / 12
  ∧ totalMonthlyOutflow f
      = f.monthlyExpenses + f.yearlyExpenses / 12 + insuranceImpactMonthly f
  ∧ annualSalaryIncome f = f.monthlyIncome * 12
  ∧ totalFinancialBase f = annualSalaryIncome f + f.totalCorpusToInvest :=
  ⟨rfl, rfl, rfl, rfl⟩

/-- C1: for every FinancialSnapshot that passes validation (income covers the
total monthly outflow, all monetary fields nonnegative), the capacity
computation satisfies emergencyBuffer = max(0.10 * grossSurplus,
0.15 * monthlyIncome) and investableFromSalary = max(0, grossSurplus -
emergencyBuffer), where grossSurplus is monthlyIncome - totalMonthlyOutflow
floored at 0. -/
theorem capacity_buffer_and_sip_formulas (f : FinancialDetails)
    (hout : totalMonthlyOutflow f ≤ f.monthlyIncome)
    (hinc : 0 ≤ f.monthlyIncome) (hcorp : 0 ≤ f.totalCorpusToInvest)
    (hexp : 0 ≤ f.monthlyExpenses) (hyear : 0 ≤ f.yearlyExpenses)
    (hterm : 0 ≤ f.insurance.termPlan) (hhealth : 0 ≤ f.insurance.healthInsurance)
    (hacc : 0 ≤ f.insurance.personalAccident) :
    emergencyBuffer f
      = max ((10 / 100) * max 0 (f.monthlyIncome - totalMonthlyOutflow f))
          ((15 / 100) * f.monthlyIncome)
  ∧ investableFromSalary f
      = max 0 (max 0 (f.monthlyIncome - totalMonthlyOutflow f) - emergencyBuffer f) := by
  have h0 : max 0 (f.monthlyIncome - totalMonthlyOutflow f)
      = f.monthlyIncome - totalMonthlyOutflow f :=
    max_eq_right (by linarith)
  exact ⟨by rw [h0]; rfl, by rw [h0]; rfl⟩

/-- Witness for C1 at the spec §8 example snapshot. -/
theorem capacity_buffer_and_sip_formulas_witness :
    emergencyBuffer exampleSnapshot
      = max ((10 / 100) * max 0 (exampleSnapshot.monthlyIncome - totalMonthlyOutflow exampleSnapshot))
          ((15 / 100) * exampleSnapshot.monthlyIncome)
  ∧ investableFromSalary exampleSnapshot
      = max 0 (max 0 (exampleSnapshot.monthlyIncome - totalMonthlyOutflow exampleSnapshot)
          - emergencyBuffer exampleSnapshot) :=
  capacity_buffer_and_sip_formulas exampleSnapshot
    (by norm_num [totalMonthlyOutflow, insuranceImpactMonthly, exampleSnapshot])
    (by norm_num [exampleSnapshot]) (by norm_num [exampleSnapshot])
    (by norm_num [exampleSnapshot]) (by norm_num [exampleSnapshot])
    (by norm_num [exampleSnapshot]) (by norm_num [exampleSnapshot])
    (by norm_num [exampleSnapshot])

/-- C6: a cash-flow deficit (monthlyIncome < totalMonthlyOutflow) makes
validation fail with an error, with no tax-slab suggestion, and blocks wizard
progression; conversely, with no deficit, a mere tax-slab mismatch keeps
isValid true with a non-null suggestedTaxSlab and progression proceeds. -/
theorem cashflow_deficit_fatal_slab_mismatch_nonfatal (f : FinancialDetails) (step : Nat) :
    (f.monthlyIncome < totalMonthlyOutflow f →
        (validateFinancialHealth f).isValid = false
      ∧ (validateFinancialHealth f).errorMessage ≠ none
      ∧ (validateFinancialHealth f).suggestedTaxSlab = none
      ∧ handleFinancialSubmit f step = (step, (validateFinancialHealth f).errorMessage))
  ∧ (totalMonthlyOutflow f ≤ f.monthlyIncome →
      f.taxSlab ≠ correctTaxSlab (totalFinancialBase f) →
        (validateFinancialHealth f).isValid = true
      ∧ (validateFinancialHealth f).suggestedTaxSlab
          = some (correctTaxSlab (totalFinancialBase f))
      ∧ handleFinancialSubmit f step = (3, none)) := by
  constructor
  · intro hdef
    simp [validateFinancialHealth, handleFinancialSubmit, hdef]
  · intro hle hmis
    simp [validateFinancialHealth, handleFinancialSubmit, not_lt.mpr hle, hmis]

/-- A snapshot in cash-flow deficit: outflow 37000 against an income of
20000. -/
def deficitSnapshot : FinancialDetails :=
  { exampleSnapshot with monthlyIncome := 20000 }

/-- Witness for C6: the deficit branch at deficitSnapshot and the
mismatch-only branch at exampleSnapshot (whose declared slab is wrong for its
taxable base of 1700000). -/
theorem cashflow_deficit_fatal_slab_mismatch_nonfatal_witness :
    ((validateFinancialHealth deficitSnapshot).isValid = false
      ∧ (validateFinancialHealth deficitSnapshot).errorMessage ≠ none
      ∧ (validateFinancialHealth deficitSnapshot).suggestedTaxSlab = none
      ∧ handleFinancialSubmit deficitSnapshot 2
          = (2, (validateFinancialHealth deficitSnapshot).errorMessage))
  ∧ ((validateFinancialHealth exampleSnapshot).isValid = true
      ∧ (validateFinancialHealth exampleSnapshot).suggestedTaxSlab
          = some (correctTaxSlab (totalFinancialBase exampleSnapshot))
      ∧ handleFinancialSubmit exampleSnapshot 2 = (3, none)) :=
  ⟨(cashflow_deficit_fatal_slab_mismatch_nonfatal deficitSnapshot 2).1
      (by norm_num [totalMonthlyOutflow, insuranceImpactMonthly, deficitSnapshot, exampleSnapshot]),
   (cashflow_deficit_fatal_slab_mismatch_nonfatal exampleSnapshot 2).2
      (by norm_num [totalMonthlyOutflow, insuranceImpactMonthly, exampleSnapshot])
      (by norm_num [totalFinancialBase, annualSalaryIncome, correctTaxSlab, exampleSnapshot]; decide)⟩

/-- C9 counterexample: with a date of birth in the future (1 Jan 2030, wizard
evaluated on 11 Oct 2026), the derived age is negative, so the claimed
invariant age ≥ 0 does not hold for every date-of-birth value. -/
theorem computeAge_negative_for_future_dob :
    computeAge 2030 1 1 2026 10 11 < 0 := by decide

/-- C9 amended: the derived age is nonnegative whenever the date of birth is
not after the evaluation date (calendar order on year, month, day). -/
theorem computeAge_nonneg_of_dob_not_future (y1 m1 d1 y2 m2 d2 : Int)
    (h : y1 < y2 ∨ (y1 = y2 ∧ (m1 < m2 ∨ (m1 = m2 ∧ d1 ≤ d2)))) :
    0 ≤ computeAge y1 m1 d1 y2 m2 d2 := by
  simp only [computeAge]
  split_ifs <;> omega

/-- Witness for the amended C9 at a past date of birth. -/
theorem computeAge_nonneg_of_dob_not_future_witness :
    0 ≤ computeAge 1990 5 20 2026 10 11 :=
  computeAge_nonneg_of_dob_not_future 1990 5 20 2026 10 11 (by decide)

/-- A concrete scheme used as a test fixture. -/
def fundA : SchemeOption := { name := "Fund A", category := "Large Cap", aum := 1000 }

/-- A concrete scheme used as a test fixture. -/
def fundB : SchemeOption := { name := "Fund B", category := "Debt", aum := 800 }

/-- A concrete scheme used as a test fixture. -/
def fundC : SchemeOption := { name := "Fund C", category := "Gold", aum := 500 }

/-- A concrete scheme used as a test fixture. -/
def fundD : SchemeOption := { name := "Fund D", category := "Large Cap", aum := 1200 }

/-- Slot 0 of the concrete test plan: fundA with alternatives fundC and
fundD. -/
def exampleSlot0 : RecommendedScheme :=
  { scheme := fundA, sipAllocationPct := 60, lumpsumAllocationPct := 50,
    alternatives := [fundC, fundD] }

/-- Slot 1 of the concrete test plan: fundB with alternative fundC. -/
def exampleSlot1 : RecommendedScheme :=
  { scheme := fundB, sipAllocationPct := 40, lumpsumAllocationPct := 50,
    alternatives := [fundC] }

/-- A concrete two-slot plan used as a test fixture. -/
def examplePlan : List RecommendedScheme := [exampleSlot0, exampleSlot1]

/-- C7: overrideWeight sets only the addressed slot's percentage for the
addressed track: the list length is preserved, every other slot is unchanged,
the addressed slot keeps its scheme, alternatives and other-track percentage,
and no renormalization of any other entry takes place. -/
theorem allocation_override_frame (recs : List RecommendedScheme) (index : Nat)
    (t : Track) (value : ℚ) (hidx : index < recs.length) :
    (handleAllocationOverride recs index t value).length = recs.length
  ∧ (∀ j, j ≠ index → (handleAllocationOverride recs index t value)[j]? = recs[j]?)
  ∧ ((handleAllocationOverride recs index t value)[index]?.map fun r => r.scheme)
      = (recs[index]?.map fun r => r.scheme)
  ∧ ((handleAllocationOverride recs index t value)[index]?.map fun r => r.alternatives)
      = (recs[index]?.map fun r => r.alternatives)
  ∧ (t = Track.sip →
        ((handleAllocationOverride recs index t value)[index]?.map
            fun r => r.sipAllocationPct) = some value
      ∧ ((handleAllocationOverride recs index t value)[index]?.map
            fun r => r.lumpsumAllocationPct)
          = (recs[index]?.map fun r => r.lumpsumAllocationPct))
  ∧ (t = Track.lumpsum →
        ((handleAllocationOverride recs index t value)[index]?.map
            fun r => r.lumpsumAllocationPct) = some value
      ∧ ((handleAllocationOverride recs index t value)[index]?.map
            fun r => r.sipAllocationPct)
          = (recs[index]?.map fun r => r.sipAllocationPct)) := by
  have hsome : recs[index]? = some recs[index] := List.getElem?_eq_getElem hidx
  cases t with
  | sip =>
    refine ⟨?_, ?_, ?_, ?_, fun _ => ⟨?_, ?_⟩, fun hc => absurd hc (by decide)⟩
    · simp [handleAllocationOverride, hsome]
    · intro j hj
      simp [handleAllocationOverride, hsome, List.getElem?_set_ne (Ne.symm hj)]
    · simp [handleAllocationOverride, hsome, List.getElem?_set_self hidx]
    · simp [handleAllocationOverride, hsome, List.getElem?_set_self hidx]
    · simp [handleAllocationOverride, hsome, List.getElem?_set_self hidx]
    · simp [handleAllocationOverride, hsome, List.getElem?_set_self hidx]
  | lumpsum =>
    refine ⟨?_, ?_, ?_, ?_, fun hc => absurd hc (by decide), fun _ => ⟨?_, ?_⟩⟩
    · simp [handleAllocationOverride, hsome]
    · intro j hj
      simp [handleAllocationOverride, hsome, List.getElem?_set_ne (Ne.symm hj)]
    · simp [handleAllocationOverride, hsome, List.getElem?_set_self hidx]
    · simp [handleAllocationOverride, hsome, List.getElem?_set_self hidx]
    · simp [handleAllocationOverride, hsome, List.getElem?_set_self hidx]
    · simp [handleAllocationOverride, hsome, List.getElem?_set_self hidx]

/-- Witness for C7 at the concrete plan: overriding slot 0's SIP percentage to
70 (making the SIP track total 110, not 100) leaves slot 1 untouched and slot
0's lumpsum percentage untouched. -/
theorem allocation_override_frame_witness :
    (handleAllocationOverride examplePlan 0 Track.sip 70)[1]? = examplePlan[1]?
  ∧ ((handleAllocationOverride examplePlan 0 Track.sip 70)[0]?.map
        fun r => r.sipAllocationPct) = some 70
  ∧ ((handleAllocationOverride examplePlan 0 Track.sip 70)[0]?.map
        fun r => r.lumpsumAllocationPct)
      = (examplePlan[0]?.map fun r => r.lumpsumAllocationPct) :=
  ⟨(allocation_override_frame examplePlan 0 Track.sip 70 (by decide)).2.1 1 (by decide),
   ((allocation_override_frame examplePlan 0 Track.sip 70 (by decide)).2.2.2.2.1 rfl).1,
   ((allocation_override_frame examplePlan 0 Track.sip 70 (by decide)).2.2.2.2.1 rfl).2⟩

/-- C5: substitution is gated on the slot's candidate set (the slot's own
scheme followed by its alternatives).  If the requested name matches no
candidate, no update is produced whatever the confirmation state (the plan is
unchanged); if it matches some candidate, the substitution succeeds once
confirmed, even when it introduces an overlap — the overlap is flagged through
the confirmation, not silently blocked. -/
theorem substitution_candidate_gate (recs : List RecommendedScheme) (index : Nat)
    (newName : String) (slot : RecommendedScheme) (hslot : recs[index]? = some slot) :
    ((∀ s ∈ slot.scheme :: slot.alternatives, s.name ≠ newName) →
        ∀ confirmOverlap, handleSchemeChange recs index newName confirmOverlap = none)
  ∧ ((∃ s ∈ slot.scheme :: slot.alternatives, s.name = newName) →
        ∃ updated, handleSchemeChange recs index newName true = some updated) := by
  constructor
  · intro hnone confirmOverlap
    have hfind : (slot.scheme :: slot.alternatives).find? (fun s => s.name = newName) = none := by
      rw [List.find?_eq_none]
      intro s hs
      simpa using hnone s hs
    simp [handleSchemeChange, hslot, hfind]
  · intro hex
    have hfind : ((slot.scheme :: slot.alternatives).find?
        (fun s => s.name = newName)).isSome := by
      rw [List.find?_isSome]
      obtain ⟨s, hs, hname⟩ := hex
      exact ⟨s, hs, by simpa using hname⟩
    obtain ⟨chosen, hchosen⟩ := Option.isSome_iff_exists.mp hfind
    refine ⟨recs.set index
      { scheme := chosen
        sipAllocationPct := slot.sipAllocationPct
        lumpsumAllocationPct := slot.lumpsumAllocationPct
        alternatives := (slot.scheme :: slot.alternatives).filter
          fun s => s.name ≠ newName }, ?_⟩
    simp [handleSchemeChange, hslot, hchosen]

/-- Witness for C5 at the concrete plan: a name outside slot 0's candidate set
is rejected for either confirmation state, while substituting the alternative
fundC succeeds. -/
theorem substitution_candidate_gate_witness :
    (handleSchemeChange examplePlan 0 "No Such Fund" false = none
      ∧ handleSchemeChange examplePlan 0 "No Such Fund" true = none)
  ∧ ∃ updated, handleSchemeChange examplePlan 0 "Fund C" true = some updated :=
  ⟨⟨(substitution_candidate_gate examplePlan 0 "No Such Fund" exampleSlot0 rfl).1
        (by decide) false,
    (substitution_candidate_gate examplePlan 0 "No Such Fund" exampleSlot0 rfl).1
        (by decide) true⟩,
   (substitution_candidate_gate examplePlan 0 "Fund C" exampleSlot0 rfl).2 (by decide)⟩

/-- C10: when a substitution succeeds for slot index, the updated slot carries
the chosen candidate's scheme data while keeping the slot's previous
sipAllocationPct and lumpsumAllocationPct; its new alternatives list is the
old slot's scheme followed by the old alternatives, with every entry named
like the chosen instrument removed; and every other slot is unchanged. -/
theorem scheme_change_success_frame (recs : List RecommendedScheme) (index : Nat)
    (newName : String) (confirmOverlap : Bool) (updated : List RecommendedScheme)
    (h : handleSchemeChange recs index newName confirmOverlap = some updated) :
    updated.length = recs.length
  ∧ (∀ j, j ≠ index → updated[j]? = recs[j]?)
  ∧ ∃ slot chosen, recs[index]? = some slot
      ∧ chosen ∈ slot.scheme :: slot.alternatives
      ∧ chosen.name = newName
      ∧ updated[index]? = some
          { scheme := chosen
            sipAllocationPct := slot.sipAllocationPct
            lumpsumAllocationPct := slot.lumpsumAllocationPct
            alternatives := (slot.scheme :: slot.alternatives).filter
              fun s => s.name ≠ newName } := by
  unfold handleSchemeChange at h
  split at h
  · exact absurd h (by simp)
  next slot hslot =>
    split at h
    · exact absurd h (by simp)
    next chosen hfind =>
      split at h
      · exact absurd h (by simp)
      next hw =>
        have hidx : index < recs.length := by
          rcases Nat.lt_or_ge index recs.length with hlt | hge
          · exact hlt
          · rw [List.getElem?_eq_none hge] at hslot
            cases hslot
        have hupd : updated = recs.set index
            { scheme := chosen
              sipAllocationPct := slot.sipAllocationPct
              lumpsumAllocationPct := slot.lumpsumAllocationPct
              alternatives := (slot.scheme :: slot.alternatives).filter
                fun s => s.name ≠ newName } :=
          (Option.some_inj.mp h).symm
        subst hupd
        refine ⟨by simp, fun j hj => List.getElem?_set_ne (Ne.symm hj), ?_⟩
        exact ⟨slot, chosen, hslot, List.mem_of_find?_eq_some hfind,
          by simpa using List.find?_some hfind, List.getElem?_set_self hidx⟩

/-- The concrete result of substituting fundC into slot 0 of the example
plan. -/
def examplePlanSub : List RecommendedScheme :=
  [{ scheme := fundC, sipAllocationPct := 60, lumpsumAllocationPct := 50,
     alternatives := [fundA, fundD] },
   { scheme := fundB, sipAllocationPct := 40, lumpsumAllocationPct := 50,
     alternatives := [fundC] }]

/-- Witness for C10: substituting fundC into slot 0 of the example plan yields
exactly examplePlanSub, preserving slot 1 and the length. -/
theorem scheme_change_success_frame_witness :
    (examplePlanSub.length = examplePlan.length)
  ∧ (examplePlanSub[1]? = examplePlan[1]?) :=
  ⟨(scheme_change_success_frame examplePlan 0 "Fund C" true examplePlanSub rfl).1,
   (scheme_change_success_frame examplePlan 0 "Fund C" true examplePlanSub rfl).2.1 1
     (by decide)⟩

/-- For a non-empty name, the overlap count is the plain occurrence count of
that name among the slot names. -/
theorem overlapsMap_eq_count (recs : List RecommendedScheme) (n : String) (hn : n ≠ "") :
    overlapsMap recs n = (recs.map fun r => r.scheme.name).count n := by
  unfold overlapsMap
  rw [List.count_eq_countP, ← List.countP_eq_length_filter]
  apply List.countP_congr
  intro m hm
  simp only [decide_eq_true_eq, beq_iff_eq]
  constructor
  · exact fun hand => hand.2
  · intro he
    exact ⟨he ▸ hn, he⟩

/-- C3: for a populated plan (every slot bound to a concrete, non-empty
instrument name), the overlap map counts occurrences per name and
hasAnyOverlap is false exactly when the slot names are pairwise distinct;
equivalently, overlap exists exactly when some name occurs more than once. -/
theorem overlap_detection_iff_distinct (recs : List RecommendedScheme)
    (hn : ∀ r ∈ recs, r.scheme.name ≠ "") :
    (¬ hasAnyOverlap recs ↔ (recs.map fun r => r.scheme.name).Nodup)
  ∧ (hasAnyOverlap recs ↔ ∃ n, 1 < overlapsMap recs n) := by
  constructor
  · constructor
    · intro hno
      rw [List.nodup_iff_count_le_one]
      intro a
      by_contra hgt
      push_neg at hgt
      have hmem : a ∈ recs.map fun r => r.scheme.name :=
        List.count_pos_iff.mp (by omega)
      obtain ⟨r, hr, hra⟩ := List.mem_map.mp hmem
      refine hno ⟨r, hr, hn r hr, ?_⟩
      rw [overlapsMap_eq_count recs _ (hn r hr), hra]
      omega
    · rintro hnd ⟨r, hr, hne, hcount⟩
      rw [overlapsMap_eq_count recs _ hne] at hcount
      have := List.nodup_iff_count_le_one.mp hnd r.scheme.name
      omega
  · constructor
    · rintro ⟨r, hr, hne, hcount⟩
      exact ⟨r.scheme.name, hcount⟩
    · rintro ⟨n, hcount⟩
      have hpos : 0 < List.countP (fun m => decide (m ≠ "" ∧ m = n))
          (recs.map fun r => r.scheme.name) := by
        rw [List.countP_eq_length_filter]
        unfold overlapsMap at hcount
        omega
      obtain ⟨m, hm, hp⟩ := List.countP_pos_iff.mp hpos
      simp only [decide_eq_true_eq] at hp
      obtain ⟨r, hr, hrm⟩ := List.mem_map.mp hm
      refine ⟨r, hr, by rw [hrm]; exact hp.1, ?_⟩
      rw [hrm, hp.2]
      exact hcount

/-- A plan with a duplicated instrument: fundC occupies both slots. -/
def overlappingPlan : List RecommendedScheme :=
  [{ scheme := fundC, sipAllocationPct := 60, lumpsumAllocationPct := 50,
     alternatives := [fundA] },
   { scheme := fundC, sipAllocationPct := 40, lumpsumAllocationPct := 50,
     alternatives := [fundB] }]

/-- Witness for C3: on the distinct-name example plan overlap detection is
empty and the names are nodup; on the duplicated plan overlap is detected. -/
theorem overlap_detection_iff_distinct_witness :
    (¬ hasAnyOverlap examplePlan ↔ (examplePlan.map fun r => r.scheme.name).Nodup)
  ∧ (¬ hasAnyOverlap overlappingPlan
        ↔ (overlappingPlan.map fun r => r.scheme.name).Nodup) :=
  ⟨(overlap_detection_iff_distinct examplePlan (by decide)).1,
   (overlap_detection_iff_distinct overlappingPlan (by decide)).1⟩

/-- The totalScore fold of src/App.tsx line 247 sums the stored answer
values. -/
theorem foldl_add_snd (l : List (Nat × Nat)) (n : Nat) :
    l.foldl (fun a b => a + b.2) n = n + (l.map Prod.snd).sum := by
  induction l generalizing n with
  | nil => simp
  | cons x xs ih =>
    simp only [List.foldl_cons, List.map_cons, List.sum_cons, ih]
    omega

/-- A list of between-1-and-4 values sums to between its length and four times
its length. -/
theorem sum_bounds_of_scores (l : List Nat) (h : ∀ x ∈ l, 1 ≤ x ∧ x ≤ 4) :
    l.length ≤ l.sum ∧ l.sum ≤ 4 * l.length := by
  induction l with
  | nil => simp
  | cons x xs ih =>
    have hx := h x (by simp)
    have hxs := ih fun y hy => h y (by simp [hy])
    simp only [List.length_cons, List.sum_cons]
    omega

/-- In a reachable answers state, every stored key is one of the four question
ids and every stored value lies in 1..4. -/
theorem reachable_answers_bounds (answers : List (Nat × Nat))
    (h : ReachableAnswers answers) :
    ∀ a ∈ answers, a.1 ∈ ({1, 2, 3, 4} : Finset ℕ) ∧ 1 ≤ a.2 ∧ a.2 ≤ 4 := by
  intro a ha
  obtain ⟨q, hq, hid, hs⟩ := h.2 a ha
  have : q ∈ RISK_QUESTIONS := hq
  fin_cases this <;> simp_all [RISK_QUESTIONS] <;> omega

/-- C8: in any reachable answers state, risk-profile computation proceeds
exactly when every question id 1..4 has an answer (otherwise it is blocked
with the incomplete-answers error), and when it proceeds the total score is
the sum of the four scores and lies in 4..16. -/
theorem risk_submit_gate (answers : List (Nat × Nat)) (h : ReachableAnswers answers) :
    ((handleRiskSubmit answers).isSome
        ↔ ∀ q ∈ RISK_QUESTIONS, ∃ s, (q.id, s) ∈ answers)
  ∧ (∀ total, handleRiskSubmit answers = some total → 4 ≤ total ∧ total ≤ 16) := by
  have hbounds := reachable_answers_bounds answers h
  have hnodup : (answers.map Prod.fst).Nodup := h.1
  have hsub : (answers.map Prod.fst).toFinset ⊆ ({1, 2, 3, 4} : Finset ℕ) := by
    intro k hk
    rw [List.mem_toFinset] at hk
    obtain ⟨a, ha, hak⟩ := List.mem_map.mp hk
    exact hak ▸ (hbounds a ha).1
  have hcard : (answers.map Prod.fst).toFinset.card = answers.length := by
    rw [List.toFinset_card_of_nodup hnodup, List.length_map]
  have hlen_le : answers.length ≤ 4 := by
    have := Finset.card_le_card hsub
    rw [hcard] at this
    simpa using this
  have hids : 4 ≤ answers.length →
      ∀ q ∈ RISK_QUESTIONS, ∃ s, (q.id, s) ∈ answers := by
    intro hlen q hq
    have heq : (answers.map Prod.fst).toFinset = ({1, 2, 3, 4} : Finset ℕ) :=
      Finset.eq_of_subset_of_card_le hsub (by rw [hcard]; simpa using hlen)
    have hqid : q.id ∈ ({1, 2, 3, 4} : Finset ℕ) := by
      fin_cases hq <;> decide
    rw [← heq, List.mem_toFinset] at hqid
    obtain ⟨a, ha, hak⟩ := List.mem_map.mp hqid
    exact ⟨a.2, by rwa [show (q.id, a.2) = a from Prod.ext hak.symm rfl]⟩
  have hlen_of : (∀ q ∈ RISK_QUESTIONS, ∃ s, (q.id, s) ∈ answers) →
      4 ≤ answers.length := by
    intro hall
    have hsup : ({1, 2, 3, 4} : Finset ℕ) ⊆ (answers.map Prod.fst).toFinset := by
      intro k hk
      have hk4 : k = 1 ∨ k = 2 ∨ k = 3 ∨ k = 4 := by
        simpa [Finset.mem_insert] using hk
      rw [List.mem_toFinset]
      rcases hk4 with rfl | rfl | rfl | rfl
      · obtain ⟨s, hs⟩ := hall ⟨1, [1, 2, 3, 4]⟩ (by decide)
        exact List.mem_map.mpr ⟨(1, s), hs, rfl⟩
      · obtain ⟨s, hs⟩ := hall ⟨2, [1, 2, 3, 4]⟩ (by decide)
        exact List.mem_map.mpr ⟨(2, s), hs, rfl⟩
      · obtain ⟨s, hs⟩ := hall ⟨3, [1, 2, 3, 4]⟩ (by decide)
        exact List.mem_map.mpr ⟨(3, s), hs, rfl⟩
      · obtain ⟨s, hs⟩ := hall ⟨4, [1, 2, 3, 4]⟩ (by decide)
        exact List.mem_map.mpr ⟨(4, s), hs, rfl⟩
    have := Finset.card_le_card hsup
    rw [hcard] at this
    simpa using this
  have hRQ : RISK_QUESTIONS.length = 4 := rfl
  constructor
  · unfold handleRiskSubmit
    rw [hRQ]
    constructor
    · intro hsome
      apply hids
      by_contra hcon
      push_neg at hcon
      rw [if_pos hcon] at hsome
      simp at hsome
    · intro hall
      have hlen := hlen_of hall
      rw [if_neg (by omega)]
      simp
  · intro total htotal
    unfold handleRiskSubmit at htotal
    rw [hRQ] at htotal
    have hlen : 4 ≤ answers.length := by
      by_contra hcon
      push_neg at hcon
      rw [if_pos hcon] at htotal
      cases htotal
    rw [if_neg (by omega)] at htotal
    have htv : total = (answers.map Prod.snd).sum := by
      have h1 := Option.some_inj.mp htotal
      rw [foldl_add_snd] at h1
      omega
    have hvals : ∀ x ∈ answers.map Prod.snd, 1 ≤ x ∧ x ≤ 4 := by
      intro x hx
      obtain ⟨a, ha, hax⟩ := List.mem_map.mp hx
      exact hax ▸ (hbounds a ha).2
    have hsum := sum_bounds_of_scores (answers.map Prod.snd) hvals
    have hlenmap : (answers.map Prod.snd).length = answers.length := by simp
    have hexact : answers.length = 4 := le_antisymm hlen_le hlen
    omega

/-- A fully answered questionnaire state used as a test fixture. -/
def exampleAnswers : List (Nat × Nat) := [(1, 2), (2, 3), (3, 1), (4, 4)]

/-- Witness for C8: with all four questions answered, risk computation
proceeds. -/
theorem risk_submit_gate_witness :
    (handleRiskSubmit exampleAnswers).isSome = true :=
  (risk_submit_gate exampleAnswers (by decide)).1.mpr (by
    intro q hq
    fin_cases hq
    · exact ⟨2, by decide⟩
    · exact ⟨3, by decide⟩
    · exact ⟨1, by decide⟩
    · exact ⟨4, by decide⟩)

end WealthGenie
